import Mathlib

/-
Shallow embedding of src/streamlit_gemini_exp_2.py, a Streamlit chat UI
over the Google generative-AI SDK.  The session state (st.session_state)
is modelled as an explicit record, the remote service (upload, polling,
chat calls) as explicit environments listing the outcomes the remote side
produces, and each event handler of the script as a pure function from
state and environment to the new state.  Machine floats only ever pass
through unchanged or get compared for equality in the claims considered
here, so the temperature field is modelled as a rational number.
-/

/-- A chat message as stored in st.session_state.messages: a dict with
keys role, content, timestamp (lines 315-319 and 349-353 of the
source). -/
structure Message where
  role : String
  content : String
  timestamp : String
deriving DecidableEq, Repr

/-- The remote file states observed through uploaded_video.state.name in
process_video (lines 102-108): PROCESSING, FAILED, and any terminal
non-failed state such as ACTIVE, modelled as ready. -/
inductive VideoState where
  | processing
  | ready
  | failed
deriving DecidableEq, Repr

/-- Environment for one run of process_video: whether genai.upload_file
returns normally, and the sequence of remote states observed (the head
is the state of the file right after upload, the tail the states
returned by the successive genai.get_file calls). -/
structure ProcEnv where
  uploadOk : Bool
  statuses : List VideoState
deriving DecidableEq, Repr

/-- Outcome of one process_video call: the returned value (some st when
uploaded_video is returned, none when the function returns None from its
except handler), whether os.unlink(video_path) ran, and the durations of
the time.sleep(10) calls the polling loop executed. -/
structure ProcResult where
  asset : Option VideoState
  tmpReleased : Bool
  sleeps : List Nat
deriving DecidableEq, Repr

/-- The polling loop of process_video (lines 102-105): while the state
name is PROCESSING, sleep 10 and re-fetch the file.  Arguments: the
current state, the remaining simulated states, the sleeps recorded so
far.  Returns none when the simulated trace runs out while the state is
still processing (the real loop would just keep polling). -/
def pollLoop : VideoState → List VideoState → List Nat → Option (VideoState × List Nat)
  | VideoState.processing, s :: rest, acc => pollLoop s rest (acc ++ [10])
  | VideoState.processing, [], _ => none
  | VideoState.ready, _, acc => some (VideoState.ready, acc)
  | VideoState.failed, _, acc => some (VideoState.failed, acc)

/-- process_video(video_file) (lines 88-119).  A temporary file is
written with delete=False; after upload the loop above polls; a FAILED
terminal state raises ValueError, which the except on line 117 catches,
showing an error and returning None — control never reaches the
os.unlink(video_path) on line 113 on that path, nor when upload_file
itself raises.  Only the success path unlinks the file and returns the
uploaded handle. -/
def process_video (env : ProcEnv) : Option ProcResult :=
  if env.uploadOk then
    match env.statuses with
    | [] => none
    | s0 :: rest =>
      match pollLoop s0 rest [] with
      | none => none
      | some (finalState, sleeps) =>
        if finalState = VideoState.failed then
          some { asset := none, tmpReleased := false, sleeps := sleeps }
        else
          some { asset := some finalState, tmpReleased := true, sleeps := sleeps }
  else
    some { asset := none, tmpReleased := false, sleeps := [] }

/-- The object model.start_chat() returns (line 86), tagged with a
generation number so that distinct calls yield distinct handles. -/
structure ChatHandle where
  id : Nat
  model : String
  temperature : ℚ
deriving DecidableEq, Repr

/-- st.session_state as used by the script: api_key (the empty string
standing for never entered), the chat handle, the message history and
the three configuration fields.  nextId is the generation counter
feeding ChatHandle.id. -/
structure SessionState where
  api_key : String
  chat : Option ChatHandle
  messages : List Message
  system_prompt : String
  selected_model : String
  temperature : ℚ
  nextId : Nat
deriving DecidableEq, Repr

/-- initialize_session_state (lines 52-70): the defaults installed for a
fresh session. -/
def initialize_session_state : SessionState :=
  { api_key := ("")
    chat := none
    messages := []
    system_prompt := ("You are a helpful AI assistant.")
    selected_model := ("gemini-exp-1206")
    temperature := 7/10
    nextId := 0 }

/-- create_chat (lines 72-87): when an API key is present, builds a
model bound to the selected model name and temperature and stores a
fresh start_chat() handle; otherwise does nothing. -/
def create_chat (s : SessionState) : SessionState :=
  if s.api_key ≠ "" then
    { s with
        chat := some { id := s.nextId, model := s.selected_model, temperature := s.temperature }
        nextId := s.nextId + 1 }
  else s

/-- The API-key expander (lines 208-213): a non-empty entry is stored in
session state, and create_chat runs only when no chat handle exists yet
(line 212 tests st.session_state.chat is None). -/
def apiKeyInput (s : SessionState) (key : String) : SessionState :=
  if key ≠ "" then
    let s1 := { s with api_key := key }
    if s1.chat = none then create_chat s1 else s1
  else s

/-- The model-selection expander (lines 215-237): when the chosen model
or temperature differs from the stored one, both are stored, the message
history is cleared, and create_chat replaces the handle. -/
def modelSettings (s : SessionState) (model : String) (temp : ℚ) : SessionState :=
  if model ≠ s.selected_model ∨ temp ≠ s.temperature then
    create_chat { s with selected_model := model, temperature := temp, messages := [] }
  else s

/-- The system-prompt expander (lines 239-248): a changed prompt is
stored, the history cleared and the handle recreated. -/
def systemPromptInput (s : SessionState) (p : String) : SessionState :=
  if p ≠ s.system_prompt then
    create_chat { s with system_prompt := p, messages := [] }
  else s

/-- The Clear Chat button (lines 251-254). -/
def clearChat (s : SessionState) : SessionState :=
  create_chat { s with messages := [] }

/-- The saved JSON document (lines 124-129 and 137): one optional slot
per top-level key, some meaning the key is present. -/
structure PersistedDoc where
  messages : Option (List Message)
  system_prompt : Option String
  selected_model : Option String
  temperature : Option ℚ
deriving DecidableEq, Repr

/-- save_conversation (lines 121-132): writes all four fields of the
document from session state. -/
def save_conversation (s : SessionState) : PersistedDoc :=
  { messages := some s.messages
    system_prompt := some s.system_prompt
    selected_model := some s.selected_model
    temperature := some s.temperature }

/-- load_conversation(file) (lines 134-146).  The direct subscript of
the messages key raises KeyError when the key is absent; the except on
line 144 catches it, shows an error and returns False with the state
untouched.  The other three fields are read with .get and per-field
defaults.  On success create_chat runs and True is returned. -/
def load_conversation (s : SessionState) (doc : PersistedDoc) : SessionState × Bool :=
  match doc.messages with
  | none => (s, false)
  | some msgs =>
    (create_chat
      { s with
          messages := msgs
          system_prompt := doc.system_prompt.getD ("")
          selected_model := doc.selected_model.getD ("gemini-exp-1206")
          temperature := doc.temperature.getD (7/10) }, true)

/-- A remote response object: either it has a parts attribute (whose
first element is used) or only a flat text attribute (lines 334
and 347). -/
inductive Response where
  | withParts (first : String)
  | flat (text : String)
deriving DecidableEq, Repr

/-- The normalization on lines 334 and 347: response.parts[0].text when
the response has parts, response.text otherwise. -/
def extractText : Response → String
  | Response.withParts s => s
  | Response.flat s => s

/-- Outcome of the one remote model call a turn makes: a response
object, or a raised exception carrying a message. -/
inductive RemoteOutcome where
  | ok (resp : Response)
  | err (msg : String)
deriving DecidableEq, Repr

/-- The request a turn issues to the remote service: through the running
chat handle (st.session_state.chat.send_message, lines 341 and 345) —
with plain text or with text plus the opened image — or as a stateless
one-shot generate_content on a freshly constructed model
(lines 326-332), carrying the processed video and a text. -/
inductive Request where
  | viaHandleText (content : String)
  | viaHandleImage (content : String)
  | oneShot (model : String) (video : VideoState) (content : String)
deriving DecidableEq, Repr

/-- Inputs and remote behaviour for one press of the Send button
(lines 299-360): the text box, whether an image is attached, the
processing environment of an attached video (if any), the outcome of the
single model call the turn would make, and the two timestamps taken at
submission and completion. -/
structure TurnEnv where
  userInput : String
  hasImage : Bool
  video : Option ProcEnv
  remote : RemoteOutcome
  ts1 : String
  ts2 : String
deriving DecidableEq, Repr

/-- display_content (lines 307-313): the text recorded in history for
the user turn, with a media marker appended when media is attached. -/
def displayContent (env : TurnEnv) : String :=
  if env.video.isSome then
    if env.userInput ≠ "" then env.userInput ++ ("\n[Video attached]") else ("[Video attached]")
  else if env.hasImage = true then
    if env.userInput ≠ "" then env.userInput ++ ("\n[Image attached]") else ("[Image attached]")
  else env.userInput

/-- The user message appended on line 315. -/
def userMsg (env : TurnEnv) : Message :=
  { role := ("user"), content := displayContent env, timestamp := env.ts1 }

/-- What one press of the Send button leaves behind: the new message
history, the request issued to the remote service (if any), the error
text shown via st.error (if any), and whether the system-prompt
reassignment on line 344 ran. -/
structure TurnResult where
  messages : List Message
  request : Option Request
  shownError : Option String
  prefixed : Bool
deriving DecidableEq, Repr

/-- One press of the Send button (lines 299-360).  The guard on line 299
requires some input; line 300 rejects a missing API key.  Then the user
message is appended (line 315) before any remote work.  A video turn
runs process_video; when that returns None the assistant message becomes
the literal text: Error processing video. — with no remote call;
otherwise a one-shot generate_content against gemini-1.5-pro is issued.
An image turn and a text turn go through
st.session_state.chat.send_message; a text turn whose append left the
history at length 1 first replaces the outgoing text by the system
prompt, a blank line, the marker User: and the user input
(lines 343-344).  Any exception from the remote call lands in the except
on line 358: the error is shown and the already-appended user message
stays.  The result is none only for runs not representable finitely (the
simulated status trace ends while the remote job still reports
processing). -/
def sendTurn (s : SessionState) (env : TurnEnv) : Option TurnResult :=
  if env.userInput = "" ∧ env.hasImage = false ∧ env.video = none then
    some { messages := s.messages, request := none, shownError := none, prefixed := false }
  else if s.api_key = "" then
    some { messages := s.messages, request := none
           shownError := some ("Please enter your API key in the sidebar.")
           prefixed := false }
  else
    match env.video with
    | some penv =>
      match process_video penv with
      | none => none
      | some pr =>
        match pr.asset with
        | some vstate =>
          match env.remote with
          | RemoteOutcome.ok resp =>
            some { messages := s.messages ++ [userMsg env] ++
                     [{ role := ("assistant"), content := extractText resp, timestamp := env.ts2 }]
                   request := some (Request.oneShot ("gemini-1.5-pro") vstate
                     (if env.userInput = "" then ("Describe this video.") else env.userInput))
                   shownError := none, prefixed := false }
          | RemoteOutcome.err m =>
            some { messages := s.messages ++ [userMsg env]
                   request := some (Request.oneShot ("gemini-1.5-pro") vstate
                     (if env.userInput = "" then ("Describe this video.") else env.userInput))
                   shownError := some m, prefixed := false }
        | none =>
          some { messages := s.messages ++ [userMsg env] ++
                   [{ role := ("assistant"), content := ("Error processing video.")
                      timestamp := env.ts2 }]
                 request := none, shownError := none, prefixed := false }
    | none =>
      if env.hasImage = true then
        match env.remote with
        | RemoteOutcome.ok resp =>
          some { messages := s.messages ++ [userMsg env] ++
                   [{ role := ("assistant"), content := extractText resp, timestamp := env.ts2 }]
                 request := some (Request.viaHandleImage
                   (if env.userInput = "" then ("Describe this image.") else env.userInput))
                 shownError := none, prefixed := false }
        | RemoteOutcome.err m =>
          some { messages := s.messages ++ [userMsg env]
                 request := some (Request.viaHandleImage
                   (if env.userInput = "" then ("Describe this image.") else env.userInput))
                 shownError := some m, prefixed := false }
      else
        match env.remote with
        | RemoteOutcome.ok resp =>
          some { messages := s.messages ++ [userMsg env] ++
                   [{ role := ("assistant"), content := extractText resp, timestamp := env.ts2 }]
                 request := some (Request.viaHandleText
                   (if (s.messages ++ [userMsg env]).length = 1 then
                      s.system_prompt ++ ("\n\nUser: ") ++ env.userInput
                    else env.userInput))
                 shownError := none, prefixed := decide ((s.messages ++ [userMsg env]).length = 1) }
        | RemoteOutcome.err m =>
          some { messages := s.messages ++ [userMsg env]
                 request := some (Request.viaHandleText
                   (if (s.messages ++ [userMsg env]).length = 1 then
                      s.system_prompt ++ ("\n\nUser: ") ++ env.userInput
                    else env.userInput))
                 shownError := some m, prefixed := decide ((s.messages ++ [userMsg env]).length = 1) }

/-- Successive presses of the Send button: fold sendTurn through a list
of turn environments, collecting each result in order.  The trace stops
at a non-representable run. -/
def runTrace (s : SessionState) : List TurnEnv → List TurnResult
  | [] => []
  | env :: rest =>
    match sendTurn s env with
    | none => []
    | some r => r :: runTrace { s with messages := r.messages } rest

/-- The guard on line 299: the turn carries some input. -/
def turnNonempty (env : TurnEnv) : Prop :=
  ¬(env.userInput = "" ∧ env.hasImage = false ∧ env.video = none)

/-- The turn actually reaches a remote model call: it is not a video
turn whose process_video returned None. -/
def remoteCallReached (env : TurnEnv) : Prop :=
  ∀ penv, env.video = some penv →
    ∃ pr v, process_video penv = some pr ∧ pr.asset = some v

/-- A processing environment whose upload succeeds and whose job is
ready at once. -/
def readyEnv : ProcEnv := { uploadOk := true, statuses := [VideoState.ready] }

/-- The run process_video readyEnv produces. -/
def readyRun : ProcResult := { asset := some VideoState.ready, tmpReleased := true, sleeps := [] }

/-- A processing environment observing processing, processing, ready. -/
def twoPollEnv : ProcEnv :=
  { uploadOk := true
    statuses := [VideoState.processing, VideoState.processing, VideoState.ready] }

/-- A fresh session with an API key entered. -/
def sK : SessionState := { initialize_session_state with api_key := ("k") }

/-- The same session with the example system prompt of the spec. -/
def terseState : SessionState := { sK with system_prompt := ("You are terse.") }

/-- A first text-only turn whose remote call succeeds. -/
def hiEnv : TurnEnv :=
  { userInput := ("Hi"), hasImage := false, video := none
    remote := RemoteOutcome.ok (Response.withParts ("OK.")), ts1 := ("t1"), ts2 := ("t2") }

/-- A first text-only turn whose remote call raises. -/
def errEnv : TurnEnv :=
  { userInput := ("Hi"), hasImage := false, video := none
    remote := RemoteOutcome.err ("boom"), ts1 := ("t1"), ts2 := ("t2") }

/-- The run sendTurn sK errEnv produces: the user message committed, the
assistant message missing. -/
def errRun : TurnResult :=
  { messages := [{ role := ("user"), content := ("Hi"), timestamp := ("t1") }]
    request := some (Request.viaHandleText ("You are a helpful AI assistant.\n\nUser: Hi"))
    shownError := some ("boom"), prefixed := true }

/-- A video turn whose remote job reports FAILED right after upload. -/
def vidFailEnv : TurnEnv :=
  { userInput := (""), hasImage := false
    video := some { uploadOk := true, statuses := [VideoState.failed] }
    remote := RemoteOutcome.ok (Response.flat ("x")), ts1 := ("t1"), ts2 := ("t2") }

/-- The run sendTurn sK vidFailEnv produces: both messages committed,
nothing raised. -/
def vidFailRun : TurnResult :=
  { messages := [{ role := ("user"), content := ("[Video attached]"), timestamp := ("t1") },
                 { role := ("assistant"), content := ("Error processing video.")
                   timestamp := ("t2") }]
    request := none, shownError := none, prefixed := false }

/-- An existing chat handle of generation 0. -/
def chatZero : ChatHandle := { id := 0, model := ("gemini-exp-1206"), temperature := 7/10 }

/-- A session mid-conversation: credential entered, live handle,
non-empty history. -/
def c4state : SessionState :=
  { api_key := ("k1"), chat := some chatZero
    messages := [{ role := ("user"), content := ("hello"), timestamp := ("t") }]
    system_prompt := ("p"), selected_model := ("gemini-exp-1206")
    temperature := 7/10, nextId := 1 }

/-- The session after the completed first turn of the spec example. -/
def secondTurnState : SessionState :=
  { terseState with
      messages := [{ role := ("user"), content := ("Hi"), timestamp := ("t1") },
                   { role := ("assistant"), content := ("OK."), timestamp := ("t2") }] }

/-- The second text-only turn of the spec example. -/
def secondTurnEnv : TurnEnv :=
  { userInput := ("How are you?"), hasImage := false, video := none
    remote := RemoteOutcome.ok (Response.withParts ("Fine.")), ts1 := ("t3"), ts2 := ("t4") }

/-- The run sendTurn secondTurnState secondTurnEnv produces. -/
def secondTurnRun : TurnResult :=
  { messages := [{ role := ("user"), content := ("Hi"), timestamp := ("t1") },
                 { role := ("assistant"), content := ("OK."), timestamp := ("t2") },
                 { role := ("user"), content := ("How are you?"), timestamp := ("t3") },
                 { role := ("assistant"), content := ("Fine."), timestamp := ("t4") }]
    request := some (Request.viaHandleText ("How are you?"))
    shownError := none, prefixed := false }

/-- A video turn whose processing succeeds at once. -/
def vidOkEnv : TurnEnv :=
  { userInput := ("What is this?"), hasImage := false
    video := some readyEnv
    remote := RemoteOutcome.ok (Response.flat ("A video.")), ts1 := ("t1"), ts2 := ("t2") }

/-- The run sendTurn sK vidOkEnv produces. -/
def vidOkRun : TurnResult :=
  { messages := [{ role := ("user"), content := ("What is this?\n[Video attached]")
                   timestamp := ("t1") },
                 { role := ("assistant"), content := ("A video."), timestamp := ("t2") }]
    request := some (Request.oneShot ("gemini-1.5-pro") VideoState.ready ("What is this?"))
    shownError := none, prefixed := false }

/-- An image turn whose remote call succeeds. -/
def imgEnv : TurnEnv :=
  { userInput := ("Look"), hasImage := true, video := none
    remote := RemoteOutcome.ok (Response.flat ("Nice.")), ts1 := ("t1"), ts2 := ("t2") }

/-- The run sendTurn sK imgEnv produces. -/
def imgRun : TurnResult :=
  { messages := [{ role := ("user"), content := ("Look\n[Image attached]"), timestamp := ("t1") },
                 { role := ("assistant"), content := ("Nice."), timestamp := ("t2") }]
    request := some (Request.viaHandleImage ("Look"))
    shownError := none, prefixed := false }

/-- A document carrying only an empty messages array. -/
def emptyDoc : PersistedDoc :=
  { messages := some [], system_prompt := none, selected_model := none, temperature := none }

/-- Any representable press of Send only ever appends to the history:
the resulting message list is at least as long as the starting one. -/
theorem sendTurn_length_le (s : SessionState) (env : TurnEnv) (r : TurnResult)
    (h : sendTurn s env = some r) : s.messages.length ≤ r.messages.length := by
  unfold sendTurn at h
  repeat' split at h
  all_goals first
    | exact Option.noConfusion h
    | (obtain rfl := Option.some.inj h
       simp only [List.length_append, List.length_cons, List.length_nil]
       omega)

/-- The line 344 reassignment never runs when the history was non-empty
before the turn: the length test sees the user message already
appended. -/
theorem sendTurn_prefixed_false_of_ne_nil (s : SessionState) (env : TurnEnv) (r : TurnResult)
    (h : sendTurn s env = some r) (hne : s.messages ≠ []) : r.prefixed = false := by
  have hlen : s.messages.length ≠ 0 := fun hz => hne (List.length_eq_zero.mp hz)
  unfold sendTurn at h
  repeat' split at h
  all_goals first
    | exact Option.noConfusion h
    | (obtain rfl := Option.some.inj h
       first
         | rfl
         | (simp only [decide_eq_false_iff_not, List.length_append, List.length_cons,
              List.length_nil]
            omega))

/-- The line 344 reassignment never runs on a media-bearing turn: the
video and image branches bypass the length test entirely. -/
theorem sendTurn_prefixed_false_of_media (s : SessionState) (env : TurnEnv) (r : TurnResult)
    (h : sendTurn s env = some r)
    (hm : env.hasImage = true ∨ env.video.isSome = true) : r.prefixed = false := by
  unfold sendTurn at h
  repeat' split at h
  all_goals first
    | exact Option.noConfusion h
    | (obtain rfl := Option.some.inj h; first | rfl | simp_all)

/-- Starting from a non-empty history, no turn of any subsequent trace
ever runs the line 344 reassignment: histories never shrink, so the
length test keeps failing. -/
theorem runTrace_prefixed_false (envs : List TurnEnv) (s : SessionState)
    (hne : s.messages ≠ []) : ∀ r ∈ runTrace s envs, r.prefixed = false := by
  induction envs generalizing s with
  | nil => intro r hr; simp [runTrace] at hr
  | cons env rest ih =>
    intro r hr
    unfold runTrace at hr
    rcases hsend : sendTurn s env with _ | r0
    · rw [hsend] at hr; simp at hr
    · rw [hsend] at hr
      simp only [List.mem_cons] at hr
      rcases hr with rfl | hr
      · exact sendTurn_prefixed_false_of_ne_nil s env r hsend hne
      · have hlen := sendTurn_length_le s env r0 hsend
        have hne0 : r0.messages ≠ [] := by
          intro hz
          rw [hz] at hlen
          exact hne (List.length_eq_zero.mp (Nat.le_zero.mp hlen))
        exact ih { s with messages := r0.messages } hne0 r hr

/-- Claim C1, counterexample: on a run whose remote job reports FAILED
right after upload, process_video returns from its except handler with
the temporary file still on disk — the scoped resource is not released
on this exit path, contrary to the claim. -/
theorem C1_counterexample :
    process_video { uploadOk := true, statuses := [VideoState.failed] } =
      some { asset := none, tmpReleased := false, sleeps := [] } := by decide

/-- Claim C1, amended: the scratch file is released exactly on the
success path.  Whenever process_video returns, the unlink ran if and
only if an uploaded asset is returned; on the remote-failure and
exception paths the except handler returns None without deleting the
file. -/
theorem C1_theorem (env : ProcEnv) (r : ProcResult) (h : process_video env = some r) :
    (r.tmpReleased = true ↔ ∃ v, r.asset = some v) := by
  unfold process_video at h
  repeat' split at h
  all_goals first
    | exact Option.noConfusion h
    | (obtain rfl := Option.some.inj h; simp)

/-- Claim C1, witness: the amended theorem applied to a concrete
successful run. -/
theorem C1_witness :
    process_video readyEnv = some readyRun ∧
    (readyRun.tmpReleased = true ↔ ∃ v, readyRun.asset = some v) :=
  ⟨by decide, C1_theorem readyEnv readyRun (by decide)⟩

/-- Claim C2, counterexample: a first text-only turn whose remote call
raises leaves exactly one of the two messages of the turn in history —
the user message is committed before the call and the handler does not
roll it back. -/
theorem C2_counterexample : sendTurn sK errEnv = some errRun := by decide

/-- Claim C2, amended: a turn that reaches its remote call appends both
messages on success, but on a remote failure the user message alone
remains committed — history mutation is not atomic. -/
theorem C2_theorem (s : SessionState) (env : TurnEnv) (r : TurnResult)
    (h : sendTurn s env = some r) (hkey : s.api_key ≠ "")
    (hne : turnNonempty env) (hcall : remoteCallReached env) :
    (∀ resp, env.remote = RemoteOutcome.ok resp →
       r.messages = s.messages ++ [userMsg env,
         { role := ("assistant"), content := extractText resp, timestamp := env.ts2 }]) ∧
    (∀ m, env.remote = RemoteOutcome.err m →
       r.messages = s.messages ++ [userMsg env]) := by
  unfold sendTurn at h
  repeat' split at h
  all_goals first
    | exact Option.noConfusion h
    | (obtain rfl := Option.some.inj h
       constructor <;> intro x hx <;> simp_all [turnNonempty, remoteCallReached])

/-- Claim C2, witness: the amended theorem applied to the failing
concrete turn. -/
theorem C2_witness :
    (∀ resp, errEnv.remote = RemoteOutcome.ok resp →
       errRun.messages = sK.messages ++ [userMsg errEnv,
         { role := ("assistant"), content := extractText resp, timestamp := errEnv.ts2 }]) ∧
    (∀ m, errEnv.remote = RemoteOutcome.err m →
       errRun.messages = sK.messages ++ [userMsg errEnv]) :=
  C2_theorem sK errEnv errRun (by decide) (by decide)
    (fun hc => absurd hc.1 (by decide))
    (fun penv hp => Option.noConfusion hp)

/-- Claim C3, counterexample: a turn carrying a video whose remote job
reports FAILED raises nothing and appends two messages — the user
message and an assistant message reading: Error processing video. — so
the claimed InvalidStateError with no appends does not happen. -/
theorem C3_counterexample : sendTurn sK vidFailEnv = some vidFailRun := by decide

/-- Claim C3, amended: when the video processing of a turn fails
(process_video returns None), the turn appends the user message and the
fixed assistant error text, issues no model request and surfaces no
error; a processing asset never reaches the send path at all, since the
polling loop only returns on a terminal status. -/
theorem C3_theorem (s : SessionState) (env : TurnEnv) (r : TurnResult) (penv : ProcEnv)
    (pr : ProcResult) (h : sendTurn s env = some r) (hkey : s.api_key ≠ "")
    (hv : env.video = some penv) (hp : process_video penv = some pr) (ha : pr.asset = none) :
    r.messages = s.messages ++ [userMsg env,
      { role := ("assistant"), content := ("Error processing video."), timestamp := env.ts2 }] ∧
    r.request = none ∧ r.shownError = none := by
  unfold sendTurn at h
  repeat' split at h
  all_goals first
    | exact Option.noConfusion h
    | (obtain rfl := Option.some.inj h; simp_all)

/-- Claim C3, witness: the amended theorem applied to the concrete
failed-video turn. -/
theorem C3_witness :
    vidFailRun.messages = sK.messages ++ [userMsg vidFailEnv,
      { role := ("assistant"), content := ("Error processing video.")
        timestamp := vidFailEnv.ts2 }] ∧
    vidFailRun.request = none ∧ vidFailRun.shownError = none :=
  C3_theorem sK vidFailEnv vidFailRun { uploadOk := true, statuses := [VideoState.failed] }
    { asset := none, tmpReleased := false, sleeps := [] }
    (by decide) (by decide) rfl (by decide) rfl

/-- Claim C4, counterexample: entering a new credential while a chat
handle exists keeps the old handle and leaves the history non-empty —
the credential is a ConversationConfig field whose mutation does not
replace the handle or clear history. -/
theorem C4_counterexample :
    (apiKeyInput c4state ("k2")).messages =
      [{ role := ("user"), content := ("hello"), timestamp := ("t") }] ∧
    (apiKeyInput c4state ("k2")).chat = c4state.chat := ⟨rfl, rfl⟩

/-- Claim C4, amended: mutating the model name, the temperature or the
system prompt clears the history and installs a freshly created handle
(a new generation, distinct from any live one), but mutating the
credential only stores the key and creates a handle when none exists,
leaving an existing handle and the history untouched. -/
theorem C4_theorem :
    (∀ s model temp, s.api_key ≠ "" →
       (model ≠ s.selected_model ∨ temp ≠ s.temperature) →
       (modelSettings s model temp).messages = [] ∧
       (modelSettings s model temp).chat =
         some { id := s.nextId, model := model, temperature := temp } ∧
       ∀ h : ChatHandle, s.chat = some h → h.id < s.nextId →
         (modelSettings s model temp).chat ≠ some h) ∧
    (∀ s p, s.api_key ≠ "" → p ≠ s.system_prompt →
       (systemPromptInput s p).messages = [] ∧
       (systemPromptInput s p).chat =
         some { id := s.nextId, model := s.selected_model, temperature := s.temperature } ∧
       ∀ h : ChatHandle, s.chat = some h → h.id < s.nextId →
         (systemPromptInput s p).chat ≠ some h) ∧
    (∀ s key, key ≠ "" → s.chat ≠ none →
       (apiKeyInput s key).chat = s.chat ∧ (apiKeyInput s key).messages = s.messages) := by
  refine ⟨?_, ?_, ?_⟩
  · intro s model temp hkey hchange
    unfold modelSettings create_chat
    rw [if_pos hchange, if_pos hkey]
    refine ⟨rfl, rfl, ?_⟩
    intro h hh hlt heq
    obtain rfl := Option.some.inj heq
    exact absurd hlt (lt_irrefl _)
  · intro s p hkey hchange
    unfold systemPromptInput create_chat
    rw [if_pos hchange, if_pos hkey]
    refine ⟨rfl, rfl, ?_⟩
    intro h hh hlt heq
    obtain rfl := Option.some.inj heq
    exact absurd hlt (lt_irrefl _)
  · intro s key hkey hchat
    unfold apiKeyInput create_chat
    rw [if_pos hkey, if_neg hchat]
    exact ⟨rfl, rfl⟩

/-- Claim C4, witness: the amended theorem applied to a concrete model
change on a mid-conversation session. -/
theorem C4_witness :
    (modelSettings c4state ("gemini-2.0-flash-exp") (7/10)).messages = [] ∧
    (modelSettings c4state ("gemini-2.0-flash-exp") (7/10)).chat =
      some { id := c4state.nextId, model := ("gemini-2.0-flash-exp"), temperature := 7/10 } ∧
    ∀ h : ChatHandle, c4state.chat = some h → h.id < c4state.nextId →
      (modelSettings c4state ("gemini-2.0-flash-exp") (7/10)).chat ≠ some h :=
  C4_theorem.1 c4state ("gemini-2.0-flash-exp") (7/10) (by decide) (Or.inl (by decide))

/-- Claim C5: loading a just-saved document succeeds and reproduces the
message sequence, the system prompt, the model name and the temperature
of the saved session, whatever session it is loaded into. -/
theorem C5_theorem (s t : SessionState) :
    (load_conversation t (save_conversation s)).2 = true ∧
    (load_conversation t (save_conversation s)).1.messages = s.messages ∧
    (load_conversation t (save_conversation s)).1.system_prompt = s.system_prompt ∧
    (load_conversation t (save_conversation s)).1.selected_model = s.selected_model ∧
    (load_conversation t (save_conversation s)).1.temperature = s.temperature := by
  simp only [load_conversation, save_conversation, create_chat]
  split <;> simp

/-- Claim C6: on a first text-only turn the outgoing request equals the
system prompt, a blank line, the marker User: and the user text; on a
later text-only turn the input goes out verbatim; no media-bearing turn
ever runs the prefix reassignment; and the concrete spec example (prompt
You are terse., input Hi) goes out exactly as claimed. -/
theorem C6_theorem :
    (∀ s env r, sendTurn s env = some r → s.api_key ≠ "" → s.messages = [] →
       env.userInput ≠ "" → env.hasImage = false → env.video = none →
       r.request = some (Request.viaHandleText
         (s.system_prompt ++ ("\n\nUser: ") ++ env.userInput)) ∧
       r.prefixed = true) ∧
    (∀ s env r, sendTurn s env = some r → s.api_key ≠ "" → s.messages ≠ [] →
       env.userInput ≠ "" → env.hasImage = false → env.video = none →
       r.request = some (Request.viaHandleText env.userInput) ∧ r.prefixed = false) ∧
    (∀ s env r, sendTurn s env = some r →
       (env.hasImage = true ∨ env.video.isSome = true) → r.prefixed = false) ∧
    sendTurn terseState hiEnv =
      some { messages := [{ role := ("user"), content := ("Hi"), timestamp := ("t1") },
                          { role := ("assistant"), content := ("OK."), timestamp := ("t2") }]
             request := some (Request.viaHandleText ("You are terse.\n\nUser: Hi"))
             shownError := none, prefixed := true } := by
  refine ⟨?_, ?_, fun s env r h hm => sendTurn_prefixed_false_of_media s env r h hm, by decide⟩
  · intro s env r h hkey hmsgs hin himg hvid
    unfold sendTurn at h
    repeat' split at h
    all_goals first
      | exact Option.noConfusion h
      | (obtain rfl := Option.some.inj h; simp_all)
  · intro s env r h hkey hmsgs hin himg hvid
    have hlen : s.messages.length ≠ 0 := fun hz => hmsgs (List.length_eq_zero.mp hz)
    unfold sendTurn at h
    repeat' split at h
    all_goals first
      | exact Option.noConfusion h
      | (obtain rfl := Option.some.inj h; simp_all)

/-- Claim C6, witness: the verbatim-second-turn part applied to the
concrete example of the spec. -/
theorem C6_witness :
    ∃ r, sendTurn secondTurnState secondTurnEnv = some r ∧
      (r.request = some (Request.viaHandleText ("How are you?")) ∧ r.prefixed = false) :=
  ⟨secondTurnRun, by decide,
    C6_theorem.2.1 secondTurnState secondTurnEnv secondTurnRun
      (by decide) (by decide) (by decide) (by decide) rfl rfl⟩

/-- Claim C7: on the status trace processing, processing, ready the
pipeline performs exactly two sleep-then-poll cycles of 10 time-units
each and returns a ready asset with the temporary file released; and the
loop steps exactly when the current status is processing, stopping
immediately on ready or failed. -/
theorem C7_theorem :
    process_video twoPollEnv =
      some { asset := some VideoState.ready, tmpReleased := true, sleeps := [10, 10] } ∧
    (∀ next rest acc, pollLoop VideoState.processing (next :: rest) acc =
      pollLoop next rest (acc ++ [10])) ∧
    (∀ rest acc, pollLoop VideoState.ready rest acc = some (VideoState.ready, acc)) ∧
    (∀ rest acc, pollLoop VideoState.failed rest acc = some (VideoState.failed, acc)) := by
  refine ⟨by decide, fun next rest acc => rfl, fun rest acc => ?_, fun rest acc => ?_⟩ <;>
    cases rest <;> rfl

/-- Claim C8, counterexample: a well-formed document lacking only the
messages key makes load fail (it returns False), so a missing field does
cause load to fail, contrary to the claim. -/
theorem C8_counterexample :
    load_conversation initialize_session_state
      { messages := none, system_prompt := some ("p"), selected_model := some ("m")
        temperature := some (1/2) } =
      (initialize_session_state, false) := rfl

/-- Claim C8, amended: the three configuration fields are total on load
— a missing system prompt, model name or temperature falls back to the
defaults (empty string, gemini-exp-1206, 0.7) — but the messages field
has no default: a document without it makes load fail and leave the
state unchanged. -/
theorem C8_theorem :
    (∀ s doc msgs, doc.messages = some msgs →
       (load_conversation s doc).2 = true ∧
       (load_conversation s doc).1.messages = msgs ∧
       (load_conversation s doc).1.system_prompt = doc.system_prompt.getD ("") ∧
       (load_conversation s doc).1.selected_model =
         doc.selected_model.getD ("gemini-exp-1206") ∧
       (load_conversation s doc).1.temperature = doc.temperature.getD (7/10)) ∧
    (∀ s doc, doc.messages = none → load_conversation s doc = (s, false)) := by
  constructor
  · intro s doc msgs h
    simp only [load_conversation, create_chat, h]
    split <;> simp
  · intro s doc h
    simp only [load_conversation, h]

/-- Claim C8, witness: the amended theorem applied to a document
carrying only a messages array. -/
theorem C8_witness :
    (load_conversation sK emptyDoc).2 = true ∧
    (load_conversation sK emptyDoc).1.messages = [] ∧
    (load_conversation sK emptyDoc).1.system_prompt = emptyDoc.system_prompt.getD ("") ∧
    (load_conversation sK emptyDoc).1.selected_model =
      emptyDoc.selected_model.getD ("gemini-exp-1206") ∧
    (load_conversation sK emptyDoc).1.temperature = emptyDoc.temperature.getD (7/10) :=
  C8_theorem.1 sK emptyDoc [] rfl

/-- Claim C9: a text-only turn and an image-bearing turn issue their
request through the running chat handle, while a video-bearing turn
whose processing succeeded issues a stateless one-shot request against
gemini-1.5-pro, bypassing the handle. -/
theorem C9_theorem :
    (∀ s env r, sendTurn s env = some r → s.api_key ≠ "" → env.userInput ≠ "" →
       env.hasImage = false → env.video = none →
       ∃ t, r.request = some (Request.viaHandleText t)) ∧
    (∀ s env r, sendTurn s env = some r → s.api_key ≠ "" →
       env.hasImage = true → env.video = none →
       ∃ t, r.request = some (Request.viaHandleImage t)) ∧
    (∀ s env r penv pr v, sendTurn s env = some r → s.api_key ≠ "" →
       env.video = some penv → process_video penv = some pr → pr.asset = some v →
       ∃ t, r.request = some (Request.oneShot ("gemini-1.5-pro") v t)) := by
  refine ⟨?_, ?_, ?_⟩
  · intro s env r h hkey hin himg hvid
    unfold sendTurn at h
    repeat' split at h
    all_goals first
      | exact Option.noConfusion h
      | (obtain rfl := Option.some.inj h; exact ⟨_, rfl⟩)
      | (obtain rfl := Option.some.inj h; simp_all)
  · intro s env r h hkey himg hvid
    unfold sendTurn at h
    repeat' split at h
    all_goals first
      | exact Option.noConfusion h
      | (obtain rfl := Option.some.inj h; exact ⟨_, rfl⟩)
      | (obtain rfl := Option.some.inj h; simp_all)
  · intro s env r penv pr v h hkey hvid hp ha
    unfold sendTurn at h
    repeat' split at h
    all_goals first
      | exact Option.noConfusion h
      | (obtain rfl := Option.some.inj h; simp_all)

/-- Claim C9, witness: the one-shot part applied to a concrete
successful video turn. -/
theorem C9_witness :
    ∃ r, sendTurn sK vidOkEnv = some r ∧
      ∃ t, r.request = some (Request.oneShot ("gemini-1.5-pro") VideoState.ready t) :=
  ⟨vidOkRun, by decide,
    C9_theorem.2.2 sK vidOkEnv vidOkRun readyEnv readyRun VideoState.ready
      (by decide) (by decide) rfl (by decide) rfl⟩

/-- Claim C10: when the first turn from an empty history is
media-bearing and completes (appends both of its messages), the
system-prompt reassignment of line 344 does not run on that turn, and
it runs on no turn of any subsequent trace either: the prefix condition
needs a text-only turn starting from an empty history, and after a
completed turn the history stays non-empty forever. -/
theorem C10_theorem (s : SessionState) (env0 : TurnEnv) (envs : List TurnEnv) (r0 : TurnResult)
    (hmedia : env0.hasImage = true ∨ env0.video.isSome = true)
    (h0 : sendTurn s env0 = some r0)
    (hdone : r0.messages.length = s.messages.length + 2) :
    r0.prefixed = false ∧
    ∀ r ∈ runTrace { s with messages := r0.messages } envs, r.prefixed = false := by
  refine ⟨sendTurn_prefixed_false_of_media s env0 r0 h0 hmedia, ?_⟩
  apply runTrace_prefixed_false
  intro hz
  have hz2 : r0.messages = [] := hz
  rw [hz2] at hdone
  simp at hdone

/-- Claim C10, witness: the theorem applied to a completed concrete
image turn followed by one further text turn. -/
theorem C10_witness :
    imgRun.prefixed = false ∧
    ∀ r ∈ runTrace { sK with messages := imgRun.messages } [secondTurnEnv],
      r.prefixed = false :=
  C10_theorem sK imgEnv [secondTurnEnv] imgRun (Or.inl rfl) (by decide) (by decide)
